import Mathlib

/-!
Shallow embedding of the echo-views template renderer (templates.go).

The repository is a thin registration/caching layer over Go's
html/template engine, adapted to the echo framework renderer interface.
The embedding translates the package's own logic (readFileNames,
compileTemplate, lookupTemplate, Render, RenderToHTMLBlob, Add,
AddWithLayout, AddWithLayoutAndIncludes, and path.Base which the package
calls) into executable Lean functions.  External collaborators are
abstracted exactly at the boundaries the source uses them:

* the filesystem (io/fs.FS) is a glob function that either fails with a
  bad-pattern error or returns an ordered list of matched file names;
* the template engine (html/template) is a pair of functions: ParseFS,
  which parses a pattern list into an opaque compiled artifact of type
  tau, and ExecuteTemplate, which given an artifact, an entry-point name
  and data produces the bytes written to the output plus an optional
  error (the engine may have streamed partial output before failing);
* the echo context (the package's own Context interface) is a pair of
  response-write results (NoContent, HTMLBlob), with the writes that
  were performed recorded as effects;
* the Logger is recorded as effects as well.

Go mutable state is passed explicitly: the registry map is an
association list with Go map insert/lookup semantics, and the fact that
the registry stores a pointer to each View (so that compileTemplate's
write to tmpl.template is visible through the map even when parsing
fails) is modelled by compileTemplate taking the key the view-argument
aliases in the map, when it does (the lookupTemplate call site), and
updating that entry in place.  A Go nil *Template is an Option that is
none; executing a nil template panics, modelled by a distinguished
crashed outcome.
-/

namespace EchoViews

/-- Errors produced by the package, structured the way the Go code builds
them: fmt.Errorf with a wrapping message corresponds to wrap, the
distinguishable zero-match error to noFiles, fs.Glob's bad-pattern error
to globBad, an opaque engine (html/template) error to engine, the
render-time unknown-name error to notFound, and an error returned by a
context response write to ctxWrite. -/
inductive Err where
  | globBad (msg : String)
  | noFiles (pattern : String)
  | engine (msg : String)
  | notFound (name : String)
  | ctxWrite (msg : String)
  | wrap (msg : String) (inner : Err)
deriving DecidableEq, Repr

/-- The shared template.FuncMap: only the set of registered function
names matters to this layer (the callables themselves are opaque to it),
so it is modelled as the list of names. -/
abbrev FuncMap := List String

/-- The io/fs.FS collaborator as the package uses it: fs.Glob either
fails with a bad-pattern error or returns the ordered list of matches. -/
structure FS where
  glob : String → Except String (List String)

/-- The html/template engine collaborator: parseFS models
template.New(name).Funcs(funcs).ParseFS(fsys, patterns...), producing an
opaque compiled artifact of type tau or an error (in which case Go
returns a nil *Template); executeTemplate models
(*Template).ExecuteTemplate(w, name, data), returning the bytes written
to w and an optional error. -/
structure Engine (τ δ : Type) where
  parseFS : String → FuncMap → FS → List String → Except String τ
  executeTemplate : τ → String → δ → String × Option String

/-- View stores the meta data for each view template: the layout
pattern, the matched page file name, the includes pattern, and the
compiled artifact (none models a nil *Template pointer). -/
structure View (τ : Type) where
  layout : String
  name : String
  includes : String
  template : Option τ
deriving DecidableEq, Repr

/-- ViewRenderer contains the template renderer state: the filesystem,
the autoReload flag, the registry map from template name to View, and
the shared function map.  The Logger field is not carried: log calls are
recorded as effects of each operation instead. -/
structure ViewRenderer (τ : Type) where
  fsys : FS
  autoReload : Bool
  templates : List (String × View τ)
  templateFuncs : FuncMap

/-- Go's path.Base: empty path gives ".", trailing slashes are stripped,
everything before the final slash is discarded, and an all-slash path
gives "/". -/
def pathBase (p : String) : String :=
  if p = "" then "." else
  let r := p.toList.reverse.dropWhile (fun c => c = '/')
  let b := r.takeWhile (fun c => c ≠ '/')
  if b = [] then "/" else String.mk b.reverse

/-- Go map read m[k] on the registry association list. -/
def mapLookup {τ : Type} (k : String) : List (String × View τ) → Option (View τ)
  | [] => none
  | (k2, v2) :: rest => if k2 = k then some v2 else mapLookup k rest

/-- Go map write m[k] = v on the registry association list: replaces the
binding when the key is present, otherwise appends it. -/
def mapInsert {τ : Type} (k : String) (v : View τ) : List (String × View τ) → List (String × View τ)
  | [] => [(k, v)]
  | (k2, v2) :: rest => if k2 = k then (k, v) :: rest else (k2, v2) :: mapInsert k v rest

/-- In-place update of an existing binding, used to model a write
through the *View pointer stored in the registry: the entry at the key
is replaced when present and nothing is added when it is absent. -/
def mapUpdate {τ : Type} (k : String) (v : View τ) : List (String × View τ) → List (String × View τ)
  | [] => []
  | (k2, v2) :: rest => if k2 = k then (k, v) :: rest else (k2, v2) :: mapUpdate k v rest

/-- The loop body of readFileNames: walks the patterns in order carrying
the accumulated file names, wrapping a glob failure, failing with the
distinguishable noFiles error on a zero-match pattern, and otherwise
appending the matches. -/
def readLoop (fsys : FS) : List String → List String → Except Err (List String)
  | [], filenames => .ok filenames
  | p :: ps, filenames =>
    match fsys.glob p with
    | .error e => .error (.wrap "failed to list using file pattern" (.globBad e))
    | .ok list =>
      if list.length = 0 then .error (.noFiles p)
      else readLoop fsys ps (filenames ++ list)

/-- readFileNames resolves each pattern against the filesystem in order,
failing if the glob fails or if any pattern matches zero files, and on
success returning the concatenation of all matches. -/
def readFileNames (fsys : FS) (patterns : List String) : Except Err (List String) :=
  readLoop fsys patterns []

/-- The pattern-list construction inside compileTemplate: start from the
empty list, append the layout if it exists, then the includes if they
exist, and finally the template file itself. -/
def buildPatterns {τ : Type} (tmpl : View τ) : List String :=
  let patterns : List String := []
  let patterns := if tmpl.layout ≠ "" then patterns ++ [tmpl.layout] else patterns
  let patterns := if tmpl.includes ≠ "" then patterns ++ [tmpl.includes] else patterns
  patterns ++ [tmpl.name]

/-- Result of compileTemplate: the returned error, the view as left by
the call (Go mutates the argument through its pointer), and the renderer
state. -/
structure CompileResult (τ : Type) where
  err : Option Err
  view : View τ
  state : ViewRenderer τ

/-- compileTemplate: derives the template name as the base of the page
file name, builds the pattern list, runs the engine's ParseFS bound to
the shared function map, assigns the result to the view's template field
(a failed ParseFS returns a nil template, so the field becomes none),
and on success stores the view in the registry under the template name.
aliasKey is the registry key whose entry the view argument is a pointer
to, when it is one (the lookupTemplate call site passes the looked-up
key; the Add call sites pass none because their views are fresh): the
field assignment is visible through that entry either way. -/
def compileTemplate {τ δ : Type} (eng : Engine τ δ) (t : ViewRenderer τ) (tmpl : View τ)
    (aliasKey : Option String) : CompileResult τ :=
  let templateName := pathBase tmpl.name
  match eng.parseFS templateName t.templateFuncs t.fsys (buildPatterns tmpl) with
  | .error e =>
    let tmpl2 := { tmpl with template := none }
    let ts := match aliasKey with
      | some k => mapUpdate k tmpl2 t.templates
      | none => t.templates
    { err := some (.wrap ("failed to parse template " ++ tmpl.name) (.engine e)),
      view := tmpl2,
      state := { t with templates := ts } }
  | .ok parsed =>
    let tmpl2 := { tmpl with template := some parsed }
    let ts := match aliasKey with
      | some k => mapUpdate k tmpl2 t.templates
      | none => t.templates
    { err := none,
      view := tmpl2,
      state := { t with templates := mapInsert templateName tmpl2 ts } }

/-- Result of lookupTemplate: the view or an error, plus the renderer
state (recompilation in reload mode changes the registry). -/
structure LookupResult (τ : Type) where
  res : Except Err (View τ)
  state : ViewRenderer τ

/-- lookupTemplate: reads the registry at the given name, failing with
notFound when absent; without autoReload returns the cached view
unchanged; with autoReload recompiles the view in place (the map entry
is the alias) and returns the compile error or the recompiled view. -/
def lookupTemplate {τ δ : Type} (eng : Engine τ δ) (t : ViewRenderer τ) (name : String) :
    LookupResult τ :=
  match mapLookup name t.templates with
  | none => { res := .error (.notFound name), state := t }
  | some tmpl =>
    if !t.autoReload then { res := .ok tmpl, state := t }
    else
      let cr := compileTemplate eng t tmpl (some name)
      match cr.err with
      | some e => { res := .error e, state := cr.state }
      | none => { res := .ok cr.view, state := cr.state }

/-- Outcome of a render-layer call: the Go error return, with a Go panic
(nil *Template dereference) distinguished as crashed. -/
inductive Outcome where
  | ok
  | fail (e : Err)
  | crashed (msg : String)
deriving DecidableEq, Repr

/-- Observable effects of a call: logger messages and context response
writes, in the order they were performed. -/
inductive Effect where
  | logDebug (msg : String)
  | logError (msg : String) (e : Err)
  | noContent (code : Nat)
  | htmlBlob (code : Nat) (body : String)
deriving DecidableEq, Repr

/-- The Context collaborator: the results its two response writes
return.  The writes themselves are recorded as effects. -/
structure Ctx where
  noContentRes : Nat → Option Err
  htmlBlobRes : Nat → String → Option Err

/-- Converts a response write result into the outcome Go returns for it. -/
def outcomeOfWrite : Option Err → Outcome
  | none => .ok
  | some e => .fail e

/-- Result of Render: the returned outcome, the renderer state, the full
content of the output writer (the string passed in plus anything the
call wrote), and the effects performed. -/
structure RenderResult (τ : Type) where
  res : Outcome
  state : ViewRenderer τ
  written : String
  effects : List Effect

/-- Render: logs a debug entry, looks up (and in reload mode
recompiles) the named view; on lookup failure logs an error, performs
the NoContent(500) context write and returns its result; otherwise
computes the execution name as the base of the view's name, overridden
by the base of the layout when a layout exists, and executes the
artifact with the supplied data, appending whatever the engine wrote to
the writer and returning the engine's error verbatim when there is one.
Executing a nil artifact crashes. -/
def Render {τ δ : Type} (eng : Engine τ δ) (t : ViewRenderer τ) (w : String) (name : String)
    (data : δ) (c : Ctx) : RenderResult τ :=
  let lr := lookupTemplate eng t name
  match lr.res with
  | .error e =>
    { res := outcomeOfWrite (c.noContentRes 500),
      state := lr.state,
      written := w,
      effects := [.logDebug "Render", .logError "failed to load template" e, .noContent 500] }
  | .ok tmpl =>
    let execName := pathBase tmpl.name
    let execName := if tmpl.layout ≠ "" then pathBase tmpl.layout else execName
    match tmpl.template with
    | none =>
      { res := .crashed "nil template dereference",
        state := lr.state,
        written := w,
        effects := [.logDebug "Render"] }
    | some tp =>
      let r := eng.executeTemplate tp execName data
      match r.2 with
      | some e =>
        { res := .fail (.engine e),
          state := lr.state,
          written := w ++ r.1,
          effects := [.logDebug "Render", .logError "failed to execute template" (.engine e)] }
      | none =>
        { res := .ok,
          state := lr.state,
          written := w ++ r.1,
          effects := [.logDebug "Render", .logDebug "Render complete"] }

/-- Result of RenderToHTMLBlob: outcome, renderer state and effects (the
in-memory buffer is internal to the call). -/
structure BlobResult (τ : Type) where
  res : Outcome
  state : ViewRenderer τ
  effects : List Effect

/-- RenderToHTMLBlob: renders into a fresh in-memory buffer; if Render
returned an error (or crashed) that result is propagated and this
operation performs no response write of its own; otherwise it performs
the HTMLBlob write of the buffer with the given status code and returns
that write's result. -/
def RenderToHTMLBlob {τ δ : Type} (eng : Engine τ δ) (t : ViewRenderer τ) (c : Ctx) (code : Nat)
    (name : String) (data : δ) : BlobResult τ :=
  let r := Render eng t "" name data c
  match r.res with
  | .ok =>
    { res := outcomeOfWrite (c.htmlBlobRes code r.written),
      state := r.state,
      effects := r.effects ++ [.htmlBlob code r.written] }
  | other => { res := other, state := r.state, effects := r.effects }

/-- Result of an Add-family registration call. -/
structure AddResult (τ : Type) where
  err : Option Err
  state : ViewRenderer τ

/-- The loop of Add: for each matched file name, builds a fresh
page-only View (zero-value layout and includes) and compiles it,
stopping at the first compile error. -/
def addLoop {τ δ : Type} (eng : Engine τ δ) : ViewRenderer τ → List String → AddResult τ
  | t, [] => { err := none, state := t }
  | t, f :: fs =>
    let tpl : View τ := { layout := "", name := f, includes := "", template := none }
    let cr := compileTemplate eng t tpl none
    match cr.err with
    | some e => { err := some e, state := cr.state }
    | none => addLoop eng cr.state fs

/-- Add: resolves the patterns and registers one page-only view per
matched file. -/
def Add {τ δ : Type} (eng : Engine τ δ) (t : ViewRenderer τ) (patterns : List String) :
    AddResult τ :=
  match readFileNames t.fsys patterns with
  | .error e => { err := some (.wrap "failed to read file names using file pattern" e), state := t }
  | .ok filenames => addLoop eng t filenames

/-- The loop of AddWithLayout: for each matched file name, builds a
fresh View carrying the shared layout (zero-value includes) and compiles
it, stopping at the first compile error. -/
def addWithLayoutLoop {τ δ : Type} (eng : Engine τ δ) (layout : String) :
    ViewRenderer τ → List String → AddResult τ
  | t, [] => { err := none, state := t }
  | t, f :: fs =>
    let tpl : View τ := { layout := layout, name := f, includes := "", template := none }
    let cr := compileTemplate eng t tpl none
    match cr.err with
    | some e => { err := some e, state := cr.state }
    | none => addWithLayoutLoop eng layout cr.state fs

/-- AddWithLayout: resolves the patterns and registers one view per
matched page file, all sharing the given layout. -/
def AddWithLayout {τ δ : Type} (eng : Engine τ δ) (t : ViewRenderer τ) (layout : String)
    (patterns : List String) : AddResult τ :=
  match readFileNames t.fsys patterns with
  | .error e => { err := some (.wrap "failed to list using file pattern" e), state := t }
  | .ok filenames => addWithLayoutLoop eng layout t filenames

/-- The loop of AddWithLayoutAndIncludes: as addWithLayoutLoop but the
fresh views also carry the shared includes pattern. -/
def addWithLayoutAndIncludesLoop {τ δ : Type} (eng : Engine τ δ) (layout includes : String) :
    ViewRenderer τ → List String → AddResult τ
  | t, [] => { err := none, state := t }
  | t, f :: fs =>
    let tpl : View τ := { layout := layout, name := f, includes := includes, template := none }
    let cr := compileTemplate eng t tpl none
    match cr.err with
    | some e => { err := some e, state := cr.state }
    | none => addWithLayoutAndIncludesLoop eng layout includes cr.state fs

/-- AddWithLayoutAndIncludes: resolves the patterns and registers one
view per matched page file, all sharing the given layout and includes. -/
def AddWithLayoutAndIncludes {τ δ : Type} (eng : Engine τ δ) (t : ViewRenderer τ)
    (layout includes : String) (patterns : List String) : AddResult τ :=
  match readFileNames t.fsys patterns with
  | .error e => { err := some (.wrap "failed to list using file pattern" e), state := t }
  | .ok filenames => addWithLayoutAndIncludesLoop eng layout includes t filenames

/-- The matches a single pattern resolves to (empty when the glob
fails); used only to state what readFileNames returns on success. -/
def globMatches (fsys : FS) (p : String) : List String :=
  match fsys.glob p with
  | .ok l => l
  | .error _ => []

/-- Concatenation of all patterns' matches, preserving pattern order and
the match order within each pattern: the spec-side description of the
readFileNames success value. -/
def allMatches (fsys : FS) : List String → List String
  | [] => []
  | p :: ps => globMatches fsys p ++ allMatches fsys ps

/-- Modelled from the spec's wording of the compile-time file list: the
layout pattern first when present, the includes pattern second when
present, the page pattern always last.  Stated separately so that it can
be compared with the list compileTemplate builds. -/
def specFileList {τ : Type} (v : View τ) : List String :=
  (if v.layout ≠ "" then [v.layout] else []) ++
    (if v.includes ≠ "" then [v.includes] else []) ++ [v.name]

/-- Modelled from the spec's wording of the execution entry point: the
base name of the view's layout when a layout was registered, else the
base name of the view's own page file. -/
def entryPoint {τ : Type} (v : View τ) : String :=
  if v.layout ≠ "" then pathBase v.layout else pathBase v.name

/-! Concrete fixtures used by witnesses and counterexamples. -/

/-- A filesystem on which every glob matches nothing. -/
def fs0 : FS := { glob := fun _ => .ok [] }

/-- A context whose response writes both succeed (echo's NoContent and
HTMLBlob return nil on a healthy connection). -/
def ctxOk : Ctx := { noContentRes := fun _ => none, htmlBlobRes := fun _ _ => none }

/-- A context whose NoContent write itself fails, so that a failed
render surfaces as a non-ok outcome. -/
def ctxErr : Ctx :=
  { noContentRes := fun _ => some (.ctxWrite "connection closed"),
    htmlBlobRes := fun _ _ => none }

/-- An engine whose ParseFS always fails. -/
def engFail : Engine Nat Nat :=
  { parseFS := fun _ _ _ _ => .error "boom",
    executeTemplate := fun _ _ _ => ("", none) }

/-- An engine whose ParseFS always yields the artifact 1 and whose
execution reports the artifact and the entry-point name it was given. -/
def engConst : Engine Nat Nat :=
  { parseFS := fun _ _ _ _ => .ok 1,
    executeTemplate := fun tp nm _ => (toString tp ++ "@" ++ nm, none) }

/-- A renderer with an empty registry. -/
def rdrEmpty : ViewRenderer Nat :=
  { fsys := fs0, autoReload := false, templates := [], templateFuncs := [] }

/-- A registered page-only view holding a compiled artifact. -/
def viewX : View Nat := { layout := "", name := "x.html", includes := "", template := some 7 }

/-- A reload-mode renderer with viewX registered under its base name. -/
def rdrReload : ViewRenderer Nat :=
  { fsys := fs0, autoReload := true, templates := [("x.html", viewX)], templateFuncs := [] }

/-- A renderer like rdrReload but with reloading disabled. -/
def rdrCached : ViewRenderer Nat :=
  { fsys := fs0, autoReload := false, templates := [("x.html", viewX)], templateFuncs := [] }

/-- A filesystem where one pattern matches two files that share a base
name in different directories. -/
def fsTwo : FS :=
  { glob := fun p => if p = "*/x.html" then .ok ["a/x.html", "b/x.html"] else .error "bad" }

/-- An engine over artifact type List String whose ParseFS records the
pattern list it was handed, and whose execution reports the artifact and
the entry-point name. -/
def engPat : Engine (List String) Nat :=
  { parseFS := fun _ _ _ pats => .ok pats,
    executeTemplate := fun tp nm _ => (String.intercalate "," tp ++ "@" ++ nm, none) }

/-- An empty renderer over fsTwo. -/
def rdrTwo : ViewRenderer (List String) :=
  { fsys := fsTwo, autoReload := false, templates := [], templateFuncs := [] }

/-- A filesystem for the readFileNames witness: pattern a matches two
files, pattern b matches none, pattern c matches one. -/
def fsC4 : FS :=
  { glob := fun p =>
      if p = "a" then .ok ["f1", "f2"]
      else if p = "b" then .ok []
      else if p = "c" then .ok ["g"]
      else .error "bad" }

/-- A view using a layout and includes, for exercising the compile-time
pattern-list order. -/
def viewLI : View Nat :=
  { layout := "lay/l.html", name := "p/page.html", includes := "inc/*.html", template := none }

/-! Helper lemmas about the registry map and the readFileNames loop. -/

theorem mapLookup_mapInsert {τ : Type} (k k2 : String) (v : View τ)
    (m : List (String × View τ)) :
    mapLookup k (mapInsert k2 v m) = if k2 = k then some v else mapLookup k m := by
  induction m with
  | nil => simp [mapInsert, mapLookup]
  | cons kv rest ih =>
    obtain ⟨k3, v3⟩ := kv
    by_cases h32 : k3 = k2
    · subst h32
      by_cases h3k : k3 = k
      · subst h3k
        simp [mapInsert, mapLookup]
      · simp [mapInsert, mapLookup, h3k]
    · by_cases h3k : k3 = k
      · have h2k : ¬ k2 = k := fun h => h32 (h3k.trans h.symm)
        have hk2 : ¬ k = k2 := fun h => h2k h.symm
        simp [mapInsert, mapLookup, h3k, h2k, hk2]
      · simp [mapInsert, mapLookup, h32, h3k, ih]

theorem mapLookup_mapUpdate_self {τ : Type} (k : String) (v v0 : View τ)
    (m : List (String × View τ)) (h : mapLookup k m = some v0) :
    mapLookup k (mapUpdate k v m) = some v := by
  induction m with
  | nil => simp [mapLookup] at h
  | cons kv rest ih =>
    obtain ⟨k2, v2⟩ := kv
    by_cases h2 : k2 = k
    · subst h2
      simp [mapUpdate, mapLookup]
    · simp only [mapLookup, if_neg h2] at h
      simp [mapUpdate, mapLookup, h2, ih h]

theorem readLoop_ok (fsys : FS) :
    ∀ (ps : List String) (acc : List String),
    (∀ p ∈ ps, ∃ l, fsys.glob p = .ok l ∧ l ≠ []) →
    readLoop fsys ps acc = .ok (acc ++ allMatches fsys ps) := by
  intro ps
  induction ps with
  | nil =>
    intro acc _
    simp [readLoop, allMatches]
  | cons p ps ih =>
    intro acc h
    obtain ⟨l, hg, hne⟩ := h p (by simp)
    have hlen : ¬ l.length = 0 := by simpa using hne
    have hrest : ∀ q ∈ ps, ∃ l2, fsys.glob q = .ok l2 ∧ l2 ≠ [] := by
      intro q hq
      exact h q (by simp [hq])
    simp [readLoop, hg, hlen, ih (acc ++ l) hrest, allMatches, globMatches]

theorem readLoop_noFiles (fsys : FS) :
    ∀ (ps : List String) (acc : List String) (q : String),
    readLoop fsys ps acc = .error (.noFiles q) →
    q ∈ ps ∧ fsys.glob q = .ok [] := by
  intro ps
  induction ps with
  | nil =>
    intro acc q h
    simp [readLoop] at h
  | cons p ps ih =>
    intro acc q h
    simp only [readLoop] at h
    cases hg : fsys.glob p with
    | error e =>
      rw [hg] at h
      simp at h
    | ok l =>
      rw [hg] at h
      dsimp only at h
      by_cases hl : l.length = 0
      · rw [if_pos hl] at h
        injection h with h1
        injection h1 with h2
        subst h2
        have hnil : l = [] := List.length_eq_zero.mp hl
        subst hnil
        exact ⟨by simp, hg⟩
      · rw [if_neg hl] at h
        obtain ⟨hq, hgq⟩ := ih (acc ++ l) q h
        exact ⟨by simp [hq], hgq⟩

theorem readLoop_zero_match (fsys : FS) :
    ∀ (ps : List String) (acc : List String),
    (∀ p ∈ ps, ∃ l, fsys.glob p = .ok l) →
    (∃ p ∈ ps, fsys.glob p = .ok []) →
    ∃ q, readLoop fsys ps acc = .error (.noFiles q) ∧ fsys.glob q = .ok [] := by
  intro ps
  induction ps with
  | nil =>
    intro acc _ hex
    simp at hex
  | cons p ps ih =>
    intro acc hall hex
    obtain ⟨l, hg⟩ := hall p (by simp)
    cases l with
    | nil =>
      refine ⟨p, ?_, hg⟩
      simp [readLoop, hg]
    | cons x xs =>
      have hlen : ¬ (x :: xs).length = 0 := by simp
      have hrest : ∀ q ∈ ps, ∃ l2, fsys.glob q = .ok l2 := by
        intro q hq
        exact hall q (by simp [hq])
      have hex2 : ∃ q ∈ ps, fsys.glob q = .ok [] := by
        obtain ⟨q, hq, hq0⟩ := hex
        rcases List.mem_cons.mp hq with hqp | hqs
        · subst hqp
          rw [hg] at hq0
          simp at hq0
        · exact ⟨q, hqs, hq0⟩
      obtain ⟨q, hrl, hq0⟩ := ih (acc ++ (x :: xs)) hrest hex2
      refine ⟨q, ?_, hq0⟩
      simp [readLoop, hg, hlen, hrl]

/-- Claim C4: readFileNames fails with the distinguishable
pattern-matches-no-files error exactly when some pattern matches zero
files (the error names such a pattern, so a pattern matching at least
one file never causes it), and on success it returns the concatenation
of every pattern's matches, preserving pattern order and the match order
within each pattern. -/
theorem c4_readFileNames_zero_match (fsys : FS) (patterns : List String) :
    ((∀ p ∈ patterns, ∃ l, fsys.glob p = .ok l) →
      (∃ p ∈ patterns, fsys.glob p = .ok []) →
      ∃ q, readFileNames fsys patterns = .error (.noFiles q) ∧ fsys.glob q = .ok []) ∧
    (∀ q, readFileNames fsys patterns = .error (.noFiles q) →
      q ∈ patterns ∧ fsys.glob q = .ok []) ∧
    ((∀ p ∈ patterns, ∃ l, fsys.glob p = .ok l ∧ l ≠ []) →
      readFileNames fsys patterns = .ok (allMatches fsys patterns)) := by
  refine ⟨?_, ?_, ?_⟩
  · intro hall hex
    exact readLoop_zero_match fsys patterns [] hall hex
  · intro q h
    exact readLoop_noFiles fsys patterns [] q h
  · intro hall
    simpa [readFileNames] using readLoop_ok fsys patterns [] hall

/-- Witness for claim C4 at the concrete filesystem fsC4: a pattern list
whose every pattern matches succeeds with the concatenated matches, and
a list containing the zero-match pattern b fails with the noFiles error. -/
theorem c4_readFileNames_zero_match_witness :
    readFileNames fsC4 ["a", "c"] = .ok ["f1", "f2", "g"] ∧
    (∃ q, readFileNames fsC4 ["a", "b"] = .error (.noFiles q) ∧ fsC4.glob q = .ok []) := by
  constructor
  · exact (c4_readFileNames_zero_match fsC4 ["a", "c"]).2.2 (by
      intro p hp
      rcases List.mem_cons.mp hp with h | h
      · subst h
        exact ⟨["f1", "f2"], rfl, by decide⟩
      · simp at h
        subst h
        exact ⟨["g"], rfl, by decide⟩)
  · exact (c4_readFileNames_zero_match fsC4 ["a", "b"]).1
      (by
        intro p hp
        rcases List.mem_cons.mp hp with h | h
        · subst h
          exact ⟨["f1", "f2"], rfl⟩
        · simp at h
          subst h
          exact ⟨[], rfl⟩)
      ⟨"b", by simp, rfl⟩

/-- Counterexample to claim C1 as stated: with a context whose NoContent
write returns nil (as echo's does on a healthy connection), Render on an
unregistered name returns ok — the result of the response write — and
not the underlying not-found error. -/
theorem c1_counterexample :
    (Render engConst rdrEmpty "" "missing.html" 0 ctxOk).res = Outcome.ok ∧
    Outcome.ok ≠ Outcome.fail (Err.notFound "missing.html") := by
  constructor
  · rfl
  · decide

/-- Counterexample to claim C2 as stated: for a registered view in
reload mode whose recompilation fails, Render does not return the
compile error — with a context whose NoContent write returns nil, it
returns ok. -/
theorem c2_counterexample :
    (Render engFail rdrReload "" "x.html" 0 ctxOk).res = Outcome.ok ∧
    Outcome.ok ≠ Outcome.fail
      (Err.wrap "failed to parse template x.html" (Err.engine "boom")) := by
  constructor
  · rfl
  · decide

/-- Counterexample to claim C3 as stated: before the failed reload
recompilation the registered view holds a fully compiled artifact; after
it, the view is still present in the registry but its artifact slot is
cleared — neither the previous fully compiled artifact nor a new one. -/
theorem c3_counterexample :
    mapLookup "x.html" rdrReload.templates = some viewX ∧
    viewX.template = some 7 ∧
    mapLookup "x.html" (Render engFail rdrReload "" "x.html" 0 ctxOk).state.templates =
      some { layout := "", name := "x.html", includes := "", template := (none : Option Nat) } := by
  refine ⟨by decide, by decide, by decide⟩

/-- Claim C1 (amended): for every view name not present in the registry,
Render logs an error, performs the NoContent internal-error status write
through the context, leaves the output writer and the renderer state
untouched, and never panics; but it returns the result of the NoContent
write (nil for a healthy connection), not the underlying not-found
error. -/
theorem c1_render_not_found (τ δ : Type) (eng : Engine τ δ) (t : ViewRenderer τ)
    (w name : String) (data : δ) (c : Ctx)
    (h : mapLookup name t.templates = none) :
    Render eng t w name data c =
      { res := outcomeOfWrite (c.noContentRes 500),
        state := t,
        written := w,
        effects := [.logDebug "Render", .logError "failed to load template" (.notFound name),
                    .noContent 500] } ∧
    (∀ msg, outcomeOfWrite (c.noContentRes 500) ≠ Outcome.crashed msg) := by
  have hl : lookupTemplate eng t name = { res := .error (.notFound name), state := t } := by
    simp [lookupTemplate, h]
  constructor
  · simp [Render, hl]
  · intro msg
    cases c.noContentRes 500 <;> simp [outcomeOfWrite]

/-- Witness for the amended claim C1 at a concrete empty registry and a
context whose NoContent write returns nil. -/
theorem c1_render_not_found_witness :
    Render engConst rdrEmpty "" "missing.html" 0 ctxOk =
      { res := outcomeOfWrite (ctxOk.noContentRes 500),
        state := rdrEmpty,
        written := "",
        effects := [.logDebug "Render",
                    .logError "failed to load template" (.notFound "missing.html"),
                    .noContent 500] } ∧
    (∀ msg, outcomeOfWrite (ctxOk.noContentRes 500) ≠ Outcome.crashed msg) :=
  c1_render_not_found Nat Nat engConst rdrEmpty "" "missing.html" 0 ctxOk (by decide)

/-- Claim C2 (amended): when autoReload is enabled and the in-render
recompilation of a registered view fails, the internal lookup returns
the compile error itself — there is no fallback to the previously
compiled artifact — but Render does not return that error to its caller:
it logs the error, performs the NoContent internal-error write, writes
nothing to the output, and returns the result of that write. -/
theorem c2_reload_compile_error (τ δ : Type) (eng : Engine τ δ) (t : ViewRenderer τ)
    (w name : String) (v : View τ) (data : δ) (c : Ctx) (e : String)
    (hv : mapLookup name t.templates = some v)
    (hr : t.autoReload = true)
    (hp : eng.parseFS (pathBase v.name) t.templateFuncs t.fsys (buildPatterns v) = .error e) :
    (lookupTemplate eng t name).res =
      .error (.wrap ("failed to parse template " ++ v.name) (.engine e)) ∧
    (Render eng t w name data c).res = outcomeOfWrite (c.noContentRes 500) ∧
    (Render eng t w name data c).written = w ∧
    (Render eng t w name data c).effects =
      [.logDebug "Render",
       .logError "failed to load template"
         (.wrap ("failed to parse template " ++ v.name) (.engine e)),
       .noContent 500] := by
  have hc : compileTemplate eng t v (some name) =
      { err := some (.wrap ("failed to parse template " ++ v.name) (.engine e)),
        view := { v with template := none },
        state := { t with templates := mapUpdate name { v with template := none } t.templates } } := by
    simp [compileTemplate, hp]
  have hl : lookupTemplate eng t name =
      { res := .error (.wrap ("failed to parse template " ++ v.name) (.engine e)),
        state := { t with
          templates := mapUpdate name { v with template := none } t.templates } } := by
    simp [lookupTemplate, hv, hr, hc]
  exact ⟨by simp [hl], by simp [Render, hl], by simp [Render, hl], by simp [Render, hl]⟩

/-- Witness for the amended claim C2 at the concrete reload-mode
renderer whose engine fails to parse. -/
theorem c2_reload_compile_error_witness :
    (lookupTemplate engFail rdrReload "x.html").res =
      .error (.wrap ("failed to parse template " ++ viewX.name) (.engine "boom")) ∧
    (Render engFail rdrReload "" "x.html" 0 ctxOk).res = outcomeOfWrite (ctxOk.noContentRes 500) ∧
    (Render engFail rdrReload "" "x.html" 0 ctxOk).written = "" ∧
    (Render engFail rdrReload "" "x.html" 0 ctxOk).effects =
      [.logDebug "Render",
       .logError "failed to load template"
         (.wrap ("failed to parse template " ++ viewX.name) (.engine "boom")),
       .noContent 500] :=
  c2_reload_compile_error Nat Nat engFail rdrReload "" "x.html" viewX 0 ctxOk "boom"
    (by decide) rfl rfl

theorem compileTemplate_err_none {τ δ : Type} (eng : Engine τ δ) (t : ViewRenderer τ)
    (v : View τ) (k : Option String)
    (h : (compileTemplate eng t v k).err = none) :
    ∃ tpl, eng.parseFS (pathBase v.name) t.templateFuncs t.fsys (buildPatterns v) = .ok tpl ∧
      (compileTemplate eng t v k).view = { v with template := some tpl } := by
  cases hp : eng.parseFS (pathBase v.name) t.templateFuncs t.fsys (buildPatterns v) with
  | error e => simp [compileTemplate, hp] at h
  | ok tpl => exact ⟨tpl, rfl, by simp [compileTemplate, hp]⟩

theorem lookupTemplate_reload_compiled {τ δ : Type} (eng : Engine τ δ) (t : ViewRenderer τ)
    (name : String) (v : View τ)
    (hr : t.autoReload = true)
    (h : (lookupTemplate eng t name).res = .ok v) :
    ∃ tp, v.template = some tp := by
  simp only [lookupTemplate] at h
  cases hv : mapLookup name t.templates with
  | none =>
    rw [hv] at h
    simp at h
  | some vx =>
    rw [hv] at h
    dsimp only at h
    rw [hr] at h
    simp only [Bool.not_true, Bool.false_eq_true, if_false] at h
    cases hc : (compileTemplate eng t vx (some name)).err with
    | some e =>
      rw [hc] at h
      simp at h
    | none =>
      rw [hc] at h
      dsimp only at h
      obtain ⟨tpl, _, hview⟩ := compileTemplate_err_none eng t vx (some name) hc
      injection h with h2
      rw [← h2, hview]
      exact ⟨tpl, rfl⟩

/-- Claim C3 (amended): a successful compileTemplate call replaces the
artifact wholesale — the registry then holds, under the view's base-name
key, the view carrying the new fully compiled artifact; but a FAILED
in-place recompilation does not keep the previous artifact: the nil
parse result is written through the registry's pointer, so the view
stays registered with its artifact slot cleared.  A Render call never
executes such a cleared artifact while autoReload is enabled, because it
recompiles before executing and aborts the render when that fails. -/
theorem c3_artifact_replacement (τ δ : Type) (eng : Engine τ δ) (t : ViewRenderer τ)
    (v v0 : View τ) (k : Option String) (w name : String) (data : δ) (c : Ctx) :
    (∀ tpl, eng.parseFS (pathBase v.name) t.templateFuncs t.fsys (buildPatterns v) = .ok tpl →
      mapLookup (pathBase v.name) (compileTemplate eng t v k).state.templates =
        some { v with template := some tpl }) ∧
    (∀ e, mapLookup name t.templates = some v0 →
      eng.parseFS (pathBase v0.name) t.templateFuncs t.fsys (buildPatterns v0) = .error e →
      mapLookup name (compileTemplate eng t v0 (some name)).state.templates =
        some { v0 with template := none }) ∧
    (t.autoReload = true → ∀ msg, (Render eng t w name data c).res ≠ Outcome.crashed msg) := by
  refine ⟨?_, ?_, ?_⟩
  · intro tpl hp
    cases k with
    | none => simp [compileTemplate, hp, mapLookup_mapInsert]
    | some kk => simp [compileTemplate, hp, mapLookup_mapInsert]
  · intro e hv hp
    simp only [compileTemplate, hp]
    exact mapLookup_mapUpdate_self name { v0 with template := none } v0 t.templates hv
  · intro hr msg
    cases hlr : (lookupTemplate eng t name).res with
    | error e =>
      simp [Render, hlr]
      cases c.noContentRes 500 <;> simp [outcomeOfWrite]
    | ok vx =>
      obtain ⟨tp, htp⟩ := lookupTemplate_reload_compiled eng t name vx hr hlr
      simp only [Render, hlr, htp]
      split <;> simp

/-- Witness for the amended claim C3: at the concrete reload-mode
renderer, a successful recompile stores the new artifact under the base
name, the concrete failed recompile clears the slot in place, and the
reload-mode Render call never crashes. -/
theorem c3_artifact_replacement_witness :
    mapLookup (pathBase viewX.name)
        (compileTemplate engConst rdrReload viewX (some "x.html")).state.templates =
      some { viewX with template := some 1 } ∧
    mapLookup "x.html" (compileTemplate engFail rdrReload viewX (some "x.html")).state.templates =
      some { viewX with template := none } ∧
    (∀ msg, (Render engFail rdrReload "" "x.html" 0 ctxOk).res ≠ Outcome.crashed msg) := by
  obtain ⟨h1, h2, h3⟩ :=
    c3_artifact_replacement Nat Nat engFail rdrReload viewX viewX (some "x.html")
      "" "x.html" 0 ctxOk
  refine ⟨?_, h2 "boom" (by decide) rfl, h3 rfl⟩
  obtain ⟨g1, _, _⟩ :=
    c3_artifact_replacement Nat Nat engConst rdrReload viewX viewX (some "x.html")
      "" "x.html" 0 ctxOk
  exact g1 1 rfl

/-- Claim C5: compileTemplate builds the source pattern list in the
exact order layout-if-non-empty, includes-if-non-empty, page file last;
hands the engine exactly that list together with the page file's base
name and the shared function extensions; and on success stores the view,
now carrying the compiled artifact, in the registry under that base-name
key (inserting or overwriting). -/
theorem c5_compile_order (τ δ : Type) (eng : Engine τ δ) (t : ViewRenderer τ) (v : View τ)
    (k : Option String) :
    buildPatterns v = specFileList v ∧
    (∀ tpl, eng.parseFS (pathBase v.name) t.templateFuncs t.fsys (specFileList v) = .ok tpl →
      (compileTemplate eng t v k).err = none ∧
      (compileTemplate eng t v k).view = { v with template := some tpl } ∧
      mapLookup (pathBase v.name) (compileTemplate eng t v k).state.templates =
        some { v with template := some tpl }) := by
  have hb : buildPatterns v = specFileList v := by
    simp only [buildPatterns, specFileList]
    by_cases hl : v.layout = "" <;> by_cases hi : v.includes = "" <;> simp [hl, hi]
  refine ⟨hb, ?_⟩
  intro tpl hp
  rw [← hb] at hp
  refine ⟨by simp [compileTemplate, hp], by simp [compileTemplate, hp], ?_⟩
  cases k with
  | none => simp [compileTemplate, hp, mapLookup_mapInsert]
  | some kk => simp [compileTemplate, hp, mapLookup_mapInsert]

/-- Witness for claim C5 at a concrete view with a layout and includes:
the pattern list is layout, includes, page in that order, and the
compiled view lands under the page's base name. -/
theorem c5_compile_order_witness :
    buildPatterns viewLI = specFileList viewLI ∧
    ((compileTemplate engConst rdrEmpty viewLI none).err = none ∧
     (compileTemplate engConst rdrEmpty viewLI none).view = { viewLI with template := some 1 } ∧
     mapLookup (pathBase viewLI.name)
         (compileTemplate engConst rdrEmpty viewLI none).state.templates =
       some { viewLI with template := some 1 }) := by
  obtain ⟨h1, h2⟩ := c5_compile_order Nat Nat engConst rdrEmpty viewLI none
  exact ⟨h1, h2 1 rfl⟩

/-- Claim C6: whenever Render's lookup step yields a view holding a
compiled artifact, the artifact is executed under the entry-point name
that is the base name of the view's layout when a non-empty layout was
registered, and the base name of the view's own page file otherwise. -/
theorem c6_entry_point (τ δ : Type) (eng : Engine τ δ) (t : ViewRenderer τ)
    (w name : String) (data : δ) (c : Ctx) (v : View τ) (tp : τ)
    (hl : (lookupTemplate eng t name).res = .ok v)
    (ht : v.template = some tp) :
    (Render eng t w name data c).written = w ++ (eng.executeTemplate tp (entryPoint v) data).1 ∧
    (Render eng t w name data c).res =
      (match (eng.executeTemplate tp (entryPoint v) data).2 with
       | none => Outcome.ok
       | some e => Outcome.fail (Err.engine e)) := by
  have hr2 : eng.executeTemplate tp (if v.layout ≠ "" then pathBase v.layout else pathBase v.name)
      data = eng.executeTemplate tp (entryPoint v) data := rfl
  simp only [Render, hl, ht, hr2]
  cases hx : eng.executeTemplate tp (entryPoint v) data with
  | mk out oerr => cases oerr <;> simp

/-- Witness for claim C6 at the concrete cached renderer: the page-only
view executes under its own base name. -/
theorem c6_entry_point_witness :
    (Render engConst rdrCached "" "x.html" 0 ctxOk).written =
      "" ++ (engConst.executeTemplate 7 (entryPoint viewX) 0).1 ∧
    (Render engConst rdrCached "" "x.html" 0 ctxOk).res =
      (match (engConst.executeTemplate 7 (entryPoint viewX) 0).2 with
       | none => Outcome.ok
       | some e => Outcome.fail (Err.engine e)) :=
  c6_entry_point Nat Nat engConst rdrCached "" "x.html" 0 ctxOk viewX 7 rfl rfl

/-- Claim C7: with autoReload disabled, Render never recompiles — the
lookup returns the cached view with the renderer state untouched — so
the outcome, the bytes written and the effects of rendering a registered
name are identical under any two filesystems, and the registry after the
call is unchanged. -/
theorem c7_no_reload_cached (τ δ : Type) (eng : Engine τ δ) (t : ViewRenderer τ)
    (f1 f2 : FS) (w name : String) (data : δ) (c : Ctx)
    (h : t.autoReload = false) :
    lookupTemplate eng t name =
      { res := (match mapLookup name t.templates with
                | none => Except.error (Err.notFound name)
                | some v => Except.ok v),
        state := t } ∧
    (Render eng { t with fsys := f1 } w name data c).res =
      (Render eng { t with fsys := f2 } w name data c).res ∧
    (Render eng { t with fsys := f1 } w name data c).written =
      (Render eng { t with fsys := f2 } w name data c).written ∧
    (Render eng { t with fsys := f1 } w name data c).effects =
      (Render eng { t with fsys := f2 } w name data c).effects ∧
    (Render eng { t with fsys := f1 } w name data c).state.templates = t.templates := by
  have hl1 : ∀ f : FS, lookupTemplate eng { t with fsys := f } name =
      { res := (match mapLookup name t.templates with
                | none => Except.error (Err.notFound name)
                | some v => Except.ok v),
        state := { t with fsys := f } } := by
    intro f
    cases hv : mapLookup name t.templates with
    | none => simp [lookupTemplate, hv, h]
    | some v => simp [lookupTemplate, hv, h]
  refine ⟨?_, ?_⟩
  · cases hv : mapLookup name t.templates with
    | none => simp [lookupTemplate, hv, h]
    | some v => simp [lookupTemplate, hv, h]
  · cases hv : mapLookup name t.templates with
    | none => simp [Render, hl1, hv]
    | some v =>
      simp only [Render, hl1, hv]
      refine ⟨?_, ?_, ?_, ?_⟩ <;> (split <;> (try split) <;> simp)

/-- Witness for claim C7 at the concrete cached renderer rendered over
two different filesystems. -/
theorem c7_no_reload_cached_witness :
    lookupTemplate engConst rdrCached "x.html" =
      { res := (match mapLookup "x.html" rdrCached.templates with
                | none => Except.error (Err.notFound "x.html")
                | some v => Except.ok v),
        state := rdrCached } ∧
    (Render engConst { rdrCached with fsys := fs0 } "" "x.html" 0 ctxOk).res =
      (Render engConst { rdrCached with fsys := fsTwo } "" "x.html" 0 ctxOk).res ∧
    (Render engConst { rdrCached with fsys := fs0 } "" "x.html" 0 ctxOk).written =
      (Render engConst { rdrCached with fsys := fsTwo } "" "x.html" 0 ctxOk).written ∧
    (Render engConst { rdrCached with fsys := fs0 } "" "x.html" 0 ctxOk).effects =
      (Render engConst { rdrCached with fsys := fsTwo } "" "x.html" 0 ctxOk).effects ∧
    (Render engConst { rdrCached with fsys := fs0 } "" "x.html" 0 ctxOk).state.templates =
      rdrCached.templates :=
  c7_no_reload_cached Nat Nat engConst rdrCached fs0 fsTwo "" "x.html" 0 ctxOk rfl

/-- Claim C8: RenderToHTMLBlob renders into an in-memory buffer and,
exactly when Render returned no error, performs a single HTMLBlob write
of that buffer with the given status code, returning the write's result;
when Render returned an error (or crashed), that result is propagated
unchanged and the operation performs no response write of its own — its
effects are exactly Render's. -/
theorem c8_render_to_html_blob (τ δ : Type) (eng : Engine τ δ) (t : ViewRenderer τ) (c : Ctx)
    (code : Nat) (name : String) (data : δ) :
    ((Render eng t "" name data c).res = .ok →
      RenderToHTMLBlob eng t c code name data =
        { res := outcomeOfWrite (c.htmlBlobRes code (Render eng t "" name data c).written),
          state := (Render eng t "" name data c).state,
          effects := (Render eng t "" name data c).effects ++
            [.htmlBlob code (Render eng t "" name data c).written] }) ∧
    ((Render eng t "" name data c).res ≠ .ok →
      RenderToHTMLBlob eng t c code name data =
        { res := (Render eng t "" name data c).res,
          state := (Render eng t "" name data c).state,
          effects := (Render eng t "" name data c).effects }) := by
  constructor
  · intro h
    simp [RenderToHTMLBlob, h]
  · intro h
    simp only [RenderToHTMLBlob]

/-- Witness for claim C8: at the concrete cached renderer both branches
are exercised — a successful render is followed by exactly one HTMLBlob
write of the buffer, and a failed render (unknown name, with a context
whose NoContent write reports an error) is propagated without any
HTMLBlob write. -/
theorem c8_render_to_html_blob_witness :
    RenderToHTMLBlob engConst rdrCached ctxOk 200 "x.html" 0 =
      { res := outcomeOfWrite (ctxOk.htmlBlobRes 200 (Render engConst rdrCached "" "x.html" 0 ctxOk).written),
        state := (Render engConst rdrCached "" "x.html" 0 ctxOk).state,
        effects := (Render engConst rdrCached "" "x.html" 0 ctxOk).effects ++
          [.htmlBlob 200 (Render engConst rdrCached "" "x.html" 0 ctxOk).written] } ∧
    RenderToHTMLBlob engConst rdrCached ctxErr 200 "nope.html" 0 =
      { res := (Render engConst rdrCached "" "nope.html" 0 ctxErr).res,
        state := (Render engConst rdrCached "" "nope.html" 0 ctxErr).state,
        effects := (Render engConst rdrCached "" "nope.html" 0 ctxErr).effects } := by
  constructor
  · exact (c8_render_to_html_blob Nat Nat engConst rdrCached ctxOk 200 "x.html" 0).1 rfl
  · exact (c8_render_to_html_blob Nat Nat engConst rdrCached ctxErr 200 "nope.html" 0).2
      (by decide)

theorem addLoop_eq_addWithLayoutLoop {τ δ : Type} (eng : Engine τ δ) :
    ∀ (fns : List String) (t : ViewRenderer τ),
    addLoop eng t fns = addWithLayoutLoop eng "" t fns := by
  intro fns
  induction fns with
  | nil => intro t; rfl
  | cons f fs ih =>
    intro t
    simp only [addLoop, addWithLayoutLoop]
    cases hc : (compileTemplate eng t
        { layout := "", name := f, includes := "", template := none } none).err with
    | some e => rfl
    | none => exact ih _

theorem addWithLayoutLoop_registers {τ δ : Type} (eng : Engine τ δ) (L : String) :
    ∀ (fns : List String) (t t2 : ViewRenderer τ),
    addWithLayoutLoop eng L t fns = { err := none, state := t2 } →
    ((∀ k v, mapLookup k t.templates = some v →
        v.layout = L ∧ v.includes = "" ∧ v.template ≠ none →
        ∃ v2, mapLookup k t2.templates = some v2 ∧
          v2.layout = L ∧ v2.includes = "" ∧ v2.template ≠ none) ∧
     (∀ f ∈ fns, ∃ v2, mapLookup (pathBase f) t2.templates = some v2 ∧
        v2.layout = L ∧ v2.includes = "" ∧ v2.template ≠ none)) := by
  intro fns
  induction fns with
  | nil =>
    intro t t2 h
    simp only [addWithLayoutLoop, AddResult.mk.injEq] at h
    obtain ⟨-, h2⟩ := h
    subst h2
    exact ⟨fun k v hkv hP => ⟨v, hkv, hP⟩, by simp⟩
  | cons f fs ih =>
    intro t t2 h
    simp only [addWithLayoutLoop] at h
    cases hc : (compileTemplate eng t
        { layout := L, name := f, includes := "", template := none } none).err with
    | some e =>
      rw [hc] at h
      simp at h
    | none =>
      rw [hc] at h
      dsimp only at h
      obtain ⟨tpl, hp, hview⟩ := compileTemplate_err_none eng t
        { layout := L, name := f, includes := "", template := none } none hc
      have hs : (compileTemplate eng t
          { layout := L, name := f, includes := "", template := none } none).state.templates =
          mapInsert (pathBase f)
            { layout := L, name := f, includes := "", template := some tpl } t.templates := by
        simp [compileTemplate, hp]
      obtain ⟨ihp, ihr⟩ := ih (compileTemplate eng t
        { layout := L, name := f, includes := "", template := none } none).state t2 h
      have hPvF : ({ layout := L, name := f, includes := "", template := some tpl } : View τ).layout = L ∧
          ({ layout := L, name := f, includes := "", template := some tpl } : View τ).includes = "" ∧
          ({ layout := L, name := f, includes := "", template := some tpl } : View τ).template ≠ none :=
        ⟨rfl, rfl, by simp⟩
      have hlookF : mapLookup (pathBase f) (compileTemplate eng t
          { layout := L, name := f, includes := "", template := none } none).state.templates =
          some { layout := L, name := f, includes := "", template := some tpl } := by
        rw [hs]
        simp [mapLookup_mapInsert]
      constructor
      · intro k v hkv hP
        by_cases hk : pathBase f = k
        · subst hk
          exact ihp _ _ hlookF hPvF
        · refine ihp k v ?_ hP
          rw [hs]
          simp only [mapLookup_mapInsert, if_neg hk]
          exact hkv
      · intro g hg
        rcases List.mem_cons.mp hg with hgf | hgs
        · subst hgf
          exact ihp _ _ hlookF hPvF
        · exact ihr g hgs

/-- Claim C9: Add registers one view per file matched by the patterns,
each with empty layout and empty includes; AddWithLayout registers one
view per matched page file, all sharing the single given layout: after a
successful call, every matched file has, under its base name, a
registered fully compiled view whose layout and includes fields are the
ones that call sets. -/
theorem c9_add_one_view_per_file (τ δ : Type) (eng : Engine τ δ) (t t2 : ViewRenderer τ)
    (patterns fns : List String) :
    (readFileNames t.fsys patterns = .ok fns →
      Add eng t patterns = { err := none, state := t2 } →
      ∀ f ∈ fns, ∃ v, mapLookup (pathBase f) t2.templates = some v ∧
        v.layout = "" ∧ v.includes = "" ∧ v.template ≠ none) ∧
    (∀ layout, readFileNames t.fsys patterns = .ok fns →
      AddWithLayout eng t layout patterns = { err := none, state := t2 } →
      ∀ f ∈ fns, ∃ v, mapLookup (pathBase f) t2.templates = some v ∧
        v.layout = layout ∧ v.includes = "" ∧ v.template ≠ none) := by
  constructor
  · intro hr ha f hf
    simp only [Add, hr] at ha
    rw [addLoop_eq_addWithLayoutLoop] at ha
    exact (addWithLayoutLoop_registers eng "" fns t t2 ha).2 f hf
  · intro L hr ha f hf
    simp only [AddWithLayout, hr] at ha
    exact (addWithLayoutLoop_registers eng L fns t t2 ha).2 f hf

/-- Witness for claim C9 at the concrete two-file registration: both Add
and AddWithLayout leave the matched file a/x.html reachable under its
base name with the fields the call sets. -/
theorem c9_add_one_view_per_file_witness :
    (∃ v, mapLookup (pathBase "a/x.html")
        (Add engPat rdrTwo ["*/x.html"]).state.templates = some v ∧
      v.layout = "" ∧ v.includes = "" ∧ v.template ≠ none) ∧
    (∃ v, mapLookup (pathBase "a/x.html")
        (AddWithLayout engPat rdrTwo "l.html" ["*/x.html"]).state.templates = some v ∧
      v.layout = "l.html" ∧ v.includes = "" ∧ v.template ≠ none) := by
  constructor
  · exact (c9_add_one_view_per_file (List String) Nat engPat rdrTwo
      (Add engPat rdrTwo ["*/x.html"]).state ["*/x.html"] ["a/x.html", "b/x.html"]).1
      rfl rfl "a/x.html" (by simp)
  · exact (c9_add_one_view_per_file (List String) Nat engPat rdrTwo
      (AddWithLayout engPat rdrTwo "l.html" ["*/x.html"]).state ["*/x.html"]
      ["a/x.html", "b/x.html"]).2 "l.html" rfl rfl "a/x.html" (by simp)

/-- Claim C10: views are keyed in the registry by the base filename of
the page file — a successful compileTemplate stores its view under the
base of the view's name — and at the concrete registration whose single
pattern matches a/x.html and b/x.html the registry ends with the single
key x.html bound to the later-compiled b/x.html view (silently
overwriting the earlier one); Render with the full matched path
a/x.html takes the not-found path, while Render with the base name
x.html executes the surviving b/x.html view. -/
theorem c10_keyed_by_base_name (τ δ : Type) (eng : Engine τ δ) (t : ViewRenderer τ)
    (v : View τ) (k : Option String) :
    ((compileTemplate eng t v k).err = none →
      mapLookup (pathBase v.name) (compileTemplate eng t v k).state.templates =
        some ((compileTemplate eng t v k).view)) ∧
    (Add engPat rdrTwo ["*/x.html"]).err = none ∧
    (Add engPat rdrTwo ["*/x.html"]).state.templates =
      [("x.html", { layout := "", name := "b/x.html", includes := "",
                    template := some ["b/x.html"] })] ∧
    (Render engPat (Add engPat rdrTwo ["*/x.html"]).state "" "a/x.html" 0 ctxOk).effects =
      [.logDebug "Render", .logError "failed to load template" (.notFound "a/x.html"),
       .noContent 500] ∧
    (Render engPat (Add engPat rdrTwo ["*/x.html"]).state "" "x.html" 0 ctxOk).res =
      Outcome.ok ∧
    (Render engPat (Add engPat rdrTwo ["*/x.html"]).state "" "x.html" 0 ctxOk).written =
      "b/x.html@x.html" := by
  refine ⟨?_, by decide, by decide, by decide, by decide, by decide⟩
  intro hc
  obtain ⟨tpl, hp, hview⟩ := compileTemplate_err_none eng t v k hc
  rw [hview]
  cases k with
  | none => simp [compileTemplate, hp, mapLookup_mapInsert]
  | some kk => simp [compileTemplate, hp, mapLookup_mapInsert]

/-- Witness for claim C10's keying conjunct at a concrete successful
compile: the compiled view lands under the base of its page file name. -/
theorem c10_keyed_by_base_name_witness :
    mapLookup (pathBase viewLI.name)
        (compileTemplate engConst rdrEmpty viewLI none).state.templates =
      some ((compileTemplate engConst rdrEmpty viewLI none).view) :=
  (c10_keyed_by_base_name Nat Nat engConst rdrEmpty viewLI none).1 rfl

end EchoViews
